import Mathlib

/-!
Verification of the SCD30 sensor driver (package scd30).

Shallow embedding conventions:
- Go bytes (uint8) are `Nat` values below 256; uint16 / uint32 arithmetic is
  `Nat` arithmetic with explicit `% 256`, `% 2 ^ 32` where the Go code casts.
- The I2C transport is abstracted: a read operation receives the result of the
  bus exchange as `Except DriverError (List Nat)` (the filled response buffer,
  or a transport failure); a write operation returns the byte frame handed to
  the bus, `Except.error` meaning the operation failed before any transaction.
- Go functions returning `(value, error)` pairs are modelled as
  `value × Option DriverError`, so the value accompanying an error is visible.
- A Go panic from out-of-bounds slice indexing is modelled by the distinguished
  error `DriverError.outOfBounds`.
- `float32` values are modelled by their IEEE-754 binary32 bit pattern
  (`math.Float32frombits` only reinterprets bits); `Float32.toRatValue` gives
  the exact rational value of a finite pattern.
-/

set_option maxRecDepth 100000

namespace SCD30

/-- One round of the CRC8 inner loop from `computeCRC8` (crc8.go): if the top
bit of the 8-bit accumulator is set, shift left and xor with the polynomial
0x31, else just shift left; the `% 256` models the `uint8` casts. -/
def crc8Round (crc : Nat) : Nat :=
  if crc &&& 0x80 ≠ 0 then ((crc <<< 1) ^^^ 0x31) % 256 else (crc <<< 1) % 256

/-- crc8Rounds crc n applies `crc8Round` n times (the `for i := 0; i < 8` inner
loop of `computeCRC8`). -/
def crc8Rounds : Nat → Nat → Nat
  | crc, 0 => crc
  | crc, n + 1 => crc8Rounds (crc8Round crc) n

/-- computeCRC8 (crc8.go): CRC8 of the first l bytes of data, accumulator
initialised to 0xFF; for each byte it is xor-ed into the accumulator (uint8
arithmetic, hence `% 256`) followed by 8 rounds. In Go, indexing requires
l ≤ len(data) (otherwise the program panics); modelled by iterating over
`data.take l`, which visits exactly `data[0] … data[l-1]` in that case. -/
def computeCRC8 (data : List Nat) (l : Nat) : Nat :=
  (data.take l).foldl (fun crc b => crc8Rounds ((crc ^^^ b) % 256) 8) 0xFF

/-- Errors surfaced by the driver. `checksumMismatch expected got` carries
exactly the information of the Go error message
"CRC checksum failed, expected: ..., got: ..."; `outOfBounds` models a Go
slice-indexing panic; `invalidParameter` carries the Go error message text;
`transportFailure` models an error propagated from the I2C bus. -/
inductive DriverError where
  | checksumMismatch (expected got : Nat) : DriverError
  | invalidParameter (message : String) : DriverError
  | transportFailure (message : String) : DriverError
  | unsupportedResponseLength : DriverError
  | outOfBounds (idx : Nat) : DriverError
deriving DecidableEq, Repr

/-- checkCRC8 (crc8.go): treats the last byte of data as the expected CRC8 of
the preceding bytes. Faithful to the Go code, the length is first cast to
uint8 (`l := uint8(len(data))`) and the final index is `l - 1` in uint8
arithmetic, i.e. `(l + 255) % 256`; for the empty slice this wraps to index
255, which is out of bounds (a panic in Go, `outOfBounds` here). -/
def checkCRC8 (data : List Nat) : Except DriverError Unit :=
  let l := data.length % 256
  let idx := (l + 255) % 256
  if h : idx < data.length then
    let expectedCRC := data.get ⟨idx, h⟩
    let crc := computeCRC8 data idx
    if crc ≠ expectedCRC then Except.error (DriverError.checksumMismatch expectedCRC crc)
    else Except.ok ()
  else Except.error (DriverError.outOfBounds idx)

/-- Register constants from registers.go. -/
def I2C_ADDRESS : Nat := 0x61

def CMD_READ_VERSION : Nat := 0xD100

def CMD_READ_DATA_READY : Nat := 0x0202

def CMD_READ_MEASUREMENT : Nat := 0x0300

def CMD_SOFT_RESET : Nat := 0xD304

def CMD_START_CONTINUOUS_MEASUREMENT : Nat := 0x0010

def CMD_STOP_CONTINUOUS_MEASUREMENT : Nat := 0x0104

def CMD_MEASUREMENT_INTERVAL : Nat := 0x4600

def CMD_ALTITUDE_COMPENSATION : Nat := 0x5102

def CMD_FORCED_RECALIBRATION_VALUE : Nat := 0x5204

def CMD_SELF_CALIBRATION : Nat := 0x5306

def CMD_TEMPERATURE_OFFSET : Nat := 0x5403

def HAS_DATA_READY : Nat := 0x0001

def SELF_CALIBRATION_ENABLED : Nat := 0x0001

def SELF_CALIBRATION_DISABLED : Nat := 0x0000

/-- A float32 value, modelled by its IEEE-754 binary32 bit pattern. -/
structure Float32 where
  bits : Nat
deriving DecidableEq, Repr

/-- float32frombits models Go `math.Float32frombits`: reinterpret a uint32 bit
pattern as a float32 (no scaling, no conversion). -/
def float32frombits (n : Nat) : Float32 := ⟨n % 2 ^ 32⟩

/-- Exact rational value of an IEEE-754 binary32 bit pattern: sign bit 31,
exponent bits 30..23, mantissa bits 22..0; `none` for the non-finite patterns
(exponent 255). A normal value is (-1)^s * (1 + m / 2^23) * 2^(e - 127)
= (-1)^s * (2^23 + m) * 2^e / 2^150, a subnormal is
(-1)^s * (m / 2^23) * 2^(-126) = (-1)^s * m * 2^1 / 2^150. -/
def Float32.toRatValue (f : Float32) : Option ℚ :=
  let b : Nat := f.bits % 2 ^ 32
  let s : Nat := b / 2 ^ 31
  let e : Nat := (b / 2 ^ 23) % 2 ^ 8
  let m : Nat := b % 2 ^ 23
  if e = 255 then none
  else
    some ((if s = 1 then (-1 : ℚ) else 1) *
      ((if e = 0 then (m : ℚ) else (2 ^ 23 + m : ℚ)) *
        2 ^ (if e = 0 then 1 else e) / 2 ^ 150))

/-- Measurement (measurement.go): the decoded result of a measurement read. -/
structure Measurement where
  CO2 : Float32
  Temperature : Float32
  Humidity : Float32
deriving DecidableEq, Repr

/-- Go zero value of `Measurement`: all three float32 fields are 0.0, whose
bit pattern is 0. -/
def Measurement.zero : Measurement := ⟨⟨0⟩, ⟨0⟩, ⟨0⟩⟩

/-- readAndCheckResponse (scd30.go): given the outcome `rx` of the bus exchange
performed by `readResponse` for the operation at hand (the command bytes and
the clock-stretch sleep are abstracted into `rx`), reject buffers that are not
exactly 3 bytes long, then check the CRC8 of the response. -/
def readAndCheckResponse (rx : Except DriverError (List Nat)) :
    Except DriverError (List Nat) :=
  match rx with
  | Except.error e => Except.error e
  | Except.ok response =>
    if response.length ≠ 3 then Except.error DriverError.unsupportedResponseLength
    else
      match checkCRC8 response with
      | Except.error e => Except.error e
      | Except.ok _ => Except.ok response

/-- GetSoftwareVersion (scd30.go), command `CMD_READ_VERSION`: on success the
"major.minor" string from response bytes 0 and 1; on error the Go named return
`version` still holds its zero value, the empty string. -/
def GetSoftwareVersion (rx : Except DriverError (List Nat)) :
    String × Option DriverError :=
  match readAndCheckResponse rx with
  | Except.error e => ("", some e)
  | Except.ok result =>
    (toString (result.getD 0 0) ++ "." ++ toString (result.getD 1 0), none)

/-- GetMeasurementInterval (scd30.go), command `CMD_MEASUREMENT_INTERVAL`:
reassembles the big-endian uint16 from response bytes 0 and 1; zero value 0 on
error. -/
def GetMeasurementInterval (rx : Except DriverError (List Nat)) :
    Nat × Option DriverError :=
  match readAndCheckResponse rx with
  | Except.error e => (0, some e)
  | Except.ok result => (((result.getD 0 0) <<< 8) ||| (result.getD 1 0), none)

/-- GetSelfCalibration (scd30.go), command `CMD_SELF_CALIBRATION`: true iff
response byte 1 equals `SELF_CALIBRATION_ENABLED`; zero value false on error. -/
def GetSelfCalibration (rx : Except DriverError (List Nat)) :
    Bool × Option DriverError :=
  match readAndCheckResponse rx with
  | Except.error e => (false, some e)
  | Except.ok result => ((result.getD 1 0) == SELF_CALIBRATION_ENABLED, none)

/-- GetForcedRecalibrationValue (scd30.go), command
`CMD_FORCED_RECALIBRATION_VALUE`: big-endian uint16 from bytes 0 and 1. -/
def GetForcedRecalibrationValue (rx : Except DriverError (List Nat)) :
    Nat × Option DriverError :=
  match readAndCheckResponse rx with
  | Except.error e => (0, some e)
  | Except.ok result => (((result.getD 0 0) <<< 8) ||| (result.getD 1 0), none)

/-- GetTemperatureOffset (scd30.go), command `CMD_TEMPERATURE_OFFSET`:
big-endian uint16 from bytes 0 and 1. -/
def GetTemperatureOffset (rx : Except DriverError (List Nat)) :
    Nat × Option DriverError :=
  match readAndCheckResponse rx with
  | Except.error e => (0, some e)
  | Except.ok result => (((result.getD 0 0) <<< 8) ||| (result.getD 1 0), none)

/-- GetAltitudeCompensation (scd30.go), command `CMD_ALTITUDE_COMPENSATION`:
big-endian uint16 from bytes 0 and 1. -/
def GetAltitudeCompensation (rx : Except DriverError (List Nat)) :
    Nat × Option DriverError :=
  match readAndCheckResponse rx with
  | Except.error e => (0, some e)
  | Except.ok result => (((result.getD 0 0) <<< 8) ||| (result.getD 1 0), none)

/-- HasDataReady (scd30.go), command `CMD_READ_DATA_READY`: true iff response
byte 1 equals `HAS_DATA_READY`; the error branch returns the literal false. -/
def HasDataReady (rx : Except DriverError (List Nat)) :
    Bool × Option DriverError :=
  match readAndCheckResponse rx with
  | Except.error e => (false, some e)
  | Except.ok result => ((result.getD 1 0) == HAS_DATA_READY, none)

/-- writeValue (scd30.go): the 5-byte frame handed to the bus for a write
operation: the 2 big-endian command bytes, the 2 big-endian value bytes, and
the CRC8 over the 2 value bytes. The `% 256` model the `uint8(...)` casts. -/
def writeValue (command value : Nat) : List Nat :=
  [(command >>> 8) % 256, (command &&& 0xFF) % 256,
   (value >>> 8) % 256, (value &&& 0xFF) % 256,
   computeCRC8 [(value >>> 8) % 256, (value &&& 0xFF) % 256] 2]

/-- SetMeasurementInterval (scd30.go): rejects values outside [2,1800] with an
InvalidParameter error carrying the Go message text, before any bus
transaction (`Except.error` means nothing was transmitted); otherwise returns
the frame transmitted for `CMD_MEASUREMENT_INTERVAL`. -/
def SetMeasurementInterval (interval : Nat) : Except DriverError (List Nat) :=
  if interval < 2 ∨ interval > 1800 then
    Except.error (DriverError.invalidParameter
      ("invalid measurement interval: " ++ toString interval ++ ", expected [2-1800]s"))
  else Except.ok (writeValue CMD_MEASUREMENT_INTERVAL interval)

/-- StartContinuousMeasurement (scd30.go): rejects an ambient pressure that is
neither 0 nor within [700,1200] before any bus transaction; otherwise returns
the frame transmitted for `CMD_START_CONTINUOUS_MEASUREMENT`. -/
def StartContinuousMeasurement (ambientPressure : Nat) :
    Except DriverError (List Nat) :=
  if ambientPressure ≠ 0 ∧ (ambientPressure < 700 ∨ ambientPressure > 1200) then
    Except.error (DriverError.invalidParameter
      ("invalid ambient pressure value: " ++ toString ambientPressure ++
        ", expected 0 or [700-1200]"))
  else Except.ok (writeValue CMD_START_CONTINUOUS_MEASUREMENT ambientPressure)

/-- One iteration of the inner chunk loop of ReadMeasurement (scd30.go): read
the 3-byte chunk starting at index i of the 18-byte buffer, check its CRC8,
and on success fold the 2 data bytes into the uint32 accumulator `value` by
two shift-left-8-then-or steps (the `% 2 ^ 32` model uint32 arithmetic). -/
def readChunk (result : List Nat) (i value : Nat) : Except DriverError Nat :=
  let chunk : List Nat :=
    [result.getD i 0, result.getD (i + 1) 0, result.getD (i + 2) 0]
  match checkCRC8 chunk with
  | Except.error e => Except.error e
  | Except.ok _ =>
    Except.ok
      ((((((value <<< 8) % 2 ^ 32) ||| result.getD i 0) <<< 8) % 2 ^ 32) |||
        result.getD (i + 1) 0)

/-- The two chunk iterations (`for c := 0; c < 2`) that decode one physical
quantity of ReadMeasurement, starting from accumulator 0 at buffer index i. -/
def decodeGroup (result : List Nat) (i : Nat) : Except DriverError Nat :=
  match readChunk result i 0 with
  | Except.error e => Except.error e
  | Except.ok v => readChunk result (i + 3) v

/-- The decode loop of ReadMeasurement (scd30.go), `for v := 0; v < 3`: the
three 6-byte groups at offsets 0, 6, 12 decode CO2, Temperature, Humidity in
that fixed order; any chunk CRC8 failure aborts the whole decode (the Go
`return measurement, err` inside the loop). -/
def readMeasurementDecode (result : List Nat) : Except DriverError Measurement :=
  match decodeGroup result 0 with
  | Except.error e => Except.error e
  | Except.ok v0 =>
    match decodeGroup result 6 with
    | Except.error e => Except.error e
    | Except.ok v1 =>
      match decodeGroup result 12 with
      | Except.error e => Except.error e
      | Except.ok v2 =>
        Except.ok ⟨float32frombits v0, float32frombits v1, float32frombits v2⟩

/-- ReadMeasurement (scd30.go), command `CMD_READ_MEASUREMENT`: `rx` is the
outcome of the bus exchange filling the 18-byte buffer. On any error the Go
named return `measurement` is still its zero value (no field was assigned
before the final three assignments). -/
def ReadMeasurement (rx : Except DriverError (List Nat)) :
    Measurement × Option DriverError :=
  match rx with
  | Except.error e => (Measurement.zero, some e)
  | Except.ok result =>
    match readMeasurementDecode result with
    | Except.error e => (Measurement.zero, some e)
    | Except.ok m => (m, none)

/-- The 3-byte chunk number k (0 ≤ k < 6) of an 18-byte measurement buffer,
exactly as `readChunk` slices it. -/
def measChunk (result : List Nat) (k : Nat) : List Nat :=
  [result.getD (3 * k) 0, result.getD (3 * k + 1) 0, result.getD (3 * k + 2) 0]

/-- Modelled from the spec: the reference CRC8 of claim C2 — an 8-bit
accumulator initialised to 0xFF; each of the first l bytes is xor-ed in, then
8 rounds of: if the top bit is set, shift left and xor 0x31, else shift left,
in non-carrying 8-bit arithmetic. Stated with `Function.iterate`,
independently of the loop translation in `computeCRC8`. -/
def crc8Reference (data : List Nat) (l : Nat) : Nat :=
  (data.take l).foldl (fun acc b => crc8Round^[8] (acc ^^^ b)) 0xFF

/-- Modelled from the spec: the big-endian uint32 formed by four bytes in
frame order, most-significant byte first (claim C1). -/
def be32 (b0 b1 b2 b3 : Nat) : Nat := ((b0 * 256 + b1) * 256 + b2) * 256 + b3

/-- The 18-byte fixture of claim C1: CO2 = 400.0 (bits 0x43C80000),
Temperature = 25.0 (bits 0x41C80000), Humidity = 50.0 (bits 0x42480000),
big-endian, each 2-byte half followed by its CRC8. -/
def measurementFixture : List Nat :=
  [0x43, 0xC8, computeCRC8 [0x43, 0xC8] 2, 0x00, 0x00, computeCRC8 [0x00, 0x00] 2,
   0x41, 0xC8, computeCRC8 [0x41, 0xC8] 2, 0x00, 0x00, computeCRC8 [0x00, 0x00] 2,
   0x42, 0x48, computeCRC8 [0x42, 0x48] 2, 0x00, 0x00, computeCRC8 [0x00, 0x00] 2]

/-- An 18-byte buffer whose first chunk has a wrong CRC byte (5 instead of
0x81) while all later chunks are valid. -/
def frameBadChunk0 : List Nat :=
  [0, 0, 5, 0, 0, 0x81, 0, 0, 0x81, 0, 0, 0x81, 0, 0, 0x81, 0, 0, 0x81]

/-- An 18-byte buffer whose second chunk has the same wrong CRC byte while
all other chunks are valid. -/
def frameBadChunk1 : List Nat :=
  [0, 0, 0x81, 0, 0, 5, 0, 0, 0x81, 0, 0, 0x81, 0, 0, 0x81, 0, 0, 0x81]

/-! Helper lemmas about the CRC8 engine. -/

lemma crc8Round_lt (c : Nat) : crc8Round c < 256 := by
  unfold crc8Round
  split <;> exact Nat.mod_lt _ (by norm_num)

lemma crc8Rounds_eq_iterate (n c : Nat) : crc8Rounds c n = crc8Round^[n] c := by
  induction n generalizing c with
  | zero => rfl
  | succ k ih => rw [crc8Rounds, ih, Function.iterate_succ_apply]

lemma crc8Rounds_eight_lt (c : Nat) : crc8Rounds c 8 < 256 := by
  rw [crc8Rounds_eq_iterate, show (8 : Nat) = 7 + 1 from rfl,
    Function.iterate_succ_apply']
  exact crc8Round_lt _

lemma crc8_fold_eq (bytes : List Nat) (acc : Nat) (ha : acc < 256)
    (hb : ∀ b ∈ bytes, b < 256) :
    bytes.foldl (fun crc b => crc8Rounds ((crc ^^^ b) % 256) 8) acc
      = bytes.foldl (fun a b => crc8Round^[8] (a ^^^ b)) acc := by
  induction bytes generalizing acc with
  | nil => rfl
  | cons b rest ih =>
    simp only [List.foldl_cons]
    have hblt : b < 256 := hb b (by simp)
    have hxor : (acc ^^^ b) % 256 = acc ^^^ b := by
      have hlt : acc ^^^ b < 2 ^ 8 :=
        Nat.xor_lt_two_pow (by omega) (by omega)
      exact Nat.mod_eq_of_lt (by omega)
    rw [hxor, crc8Rounds_eq_iterate]
    exact ih _ (by
      rw [← crc8Rounds_eq_iterate]
      exact crc8Rounds_eight_lt _) (fun x hx => hb x (by simp [hx]))

/-- C2: computeCRC8 agrees with the reference CRC8 description (accumulator
0xFF, xor each of the first l bytes, 8 shift/xor-0x31 rounds per byte, 8-bit
non-carrying arithmetic) on every byte sequence and every length l not
exceeding the sequence length. -/
theorem computeCRC8_matches_reference (data : List Nat) (l : Nat)
    (hb : ∀ b ∈ data, b < 256) (_hl : l ≤ data.length) :
    computeCRC8 data l = crc8Reference data l := by
  unfold computeCRC8 crc8Reference
  exact crc8_fold_eq _ _ (by norm_num)
    (fun b hbt => hb b (List.mem_of_mem_take hbt))

theorem computeCRC8_matches_reference_witness :
    (∀ b ∈ ([0xBE, 0xEF] : List Nat), b < 256) ∧
    2 ≤ ([0xBE, 0xEF] : List Nat).length ∧
    computeCRC8 [0xBE, 0xEF] 2 = crc8Reference [0xBE, 0xEF] 2 :=
  ⟨by decide, by decide,
    computeCRC8_matches_reference [0xBE, 0xEF] 2 (by decide) (by decide)⟩

/-- C7: the CRC8 known-answer test: computeCRC8 of the two bytes 0xBE, 0xEF is
exactly 0x92. -/
theorem computeCRC8_known_answer : computeCRC8 [0xBE, 0xEF] 2 = 0x92 := by rfl

/-- C9: checkCRC8 on the empty frame neither succeeds nor reports a checksum
mismatch: the uint8 length wraps, the final byte is looked up at index 255,
which is out of bounds (a Go panic); on every frame of length 1..255 all
indexing is in bounds and the result is ok or a ChecksumMismatch. -/
theorem checkCRC8_bounds_safety :
    checkCRC8 [] = Except.error (DriverError.outOfBounds 255) ∧
    ∀ data : List Nat, 1 ≤ data.length → data.length ≤ 255 →
      checkCRC8 data = Except.ok () ∨
        ∃ e g, checkCRC8 data = Except.error (DriverError.checksumMismatch e g) := by
  constructor
  · rfl
  · intro data h1 h255
    simp only [checkCRC8]
    split
    · split
      · right; exact ⟨_, _, rfl⟩
      · left; rfl
    · rename_i hlt
      exfalso
      omega

theorem checkCRC8_bounds_safety_witness :
    1 ≤ ([0xFF] : List Nat).length ∧ ([0xFF] : List Nat).length ≤ 255 ∧
    (checkCRC8 [0xFF] = Except.ok () ∨
      ∃ e g, checkCRC8 [0xFF] = Except.error (DriverError.checksumMismatch e g)) :=
  ⟨by decide, by decide, checkCRC8_bounds_safety.2 [0xFF] (by decide) (by decide)⟩

/-! Frame verification: appending the CRC8 of the data. -/

lemma checkCRC8_append (d : List Nat) (x : Nat) (hlen : d.length ≤ 255) :
    checkCRC8 (d ++ [x]) =
      if computeCRC8 d d.length ≠ x then
        Except.error (DriverError.checksumMismatch x (computeCRC8 d d.length))
      else Except.ok () := by
  have hcomp : computeCRC8 (d ++ [x]) d.length = computeCRC8 d d.length := by
    unfold computeCRC8
    rw [List.take_left, List.take_length]
  simp only [checkCRC8, List.length_append, List.length_cons, List.length_nil,
    Nat.zero_add]
  have hidx : ((d.length + 1) % 256 + 255) % 256 = d.length := by omega
  simp only [hidx]
  rw [dif_pos (Nat.lt_succ_self d.length)]
  simp only [List.get_eq_getElem, List.getElem_concat_length, hcomp]

lemma checkCRC8_pair (a b : Nat) :
    checkCRC8 [a, b, computeCRC8 [a, b] 2] = Except.ok () := by
  have h := checkCRC8_append [a, b] (computeCRC8 [a, b] 2) (by norm_num)
  simp at h
  simpa using h

set_option maxRecDepth 10000 in
/-- C3 counterexample: for the 256-byte sequence of zeros, appending its CRC8
does not verify: the frame length 257 is cast to uint8 (= 1), so checkCRC8
compares byte 0 (= 0) with the CRC8 of zero bytes (= 0xFF) and reports a
mismatch instead of succeeding. -/
theorem crc8_roundtrip_length256_fails :
    checkCRC8 (List.replicate 256 0 ++
        [computeCRC8 (List.replicate 256 0) (List.replicate 256 0).length]) =
      Except.error (DriverError.checksumMismatch 0 0xFF) := by rfl

/-- C3 amended: for every byte sequence d of length at most 255, appending
computeCRC8 d (len d) yields a frame that checkCRC8 accepts, and replacing
that last byte by any different value makes checkCRC8 fail with a
ChecksumMismatch; for longer sequences the uint8 length cast inside checkCRC8
breaks the round trip. -/
theorem crc8_roundtrip_bounded (d : List Nat) (hlen : d.length ≤ 255) :
    checkCRC8 (d ++ [computeCRC8 d d.length]) = Except.ok () ∧
    ∀ b : Nat, b ≠ computeCRC8 d d.length →
      checkCRC8 (d ++ [b]) =
        Except.error (DriverError.checksumMismatch b (computeCRC8 d d.length)) := by
  constructor
  · rw [checkCRC8_append d _ hlen]
    simp
  · intro b hb
    rw [checkCRC8_append d b hlen]
    simp [Ne.symm hb]

theorem crc8_roundtrip_bounded_witness :
    ([0xBE, 0xEF] : List Nat).length ≤ 255 ∧
    checkCRC8 ([0xBE, 0xEF] ++
      [computeCRC8 [0xBE, 0xEF] ([0xBE, 0xEF] : List Nat).length]) = Except.ok () ∧
    checkCRC8 ([0xBE, 0xEF] ++ [0]) =
      Except.error (DriverError.checksumMismatch 0
        (computeCRC8 [0xBE, 0xEF] ([0xBE, 0xEF] : List Nat).length)) :=
  ⟨by decide, (crc8_roundtrip_bounded [0xBE, 0xEF] (by decide)).1,
    (crc8_roundtrip_bounded [0xBE, 0xEF] (by decide)).2 0 (by decide)⟩

/-! Simple-value getters. -/

lemma getSelfCalibration_ok (frame : List Nat) (h3 : frame.length = 3)
    (hc : checkCRC8 frame = Except.ok ()) :
    GetSelfCalibration (Except.ok frame) = ((frame.getD 1 0) == 1, none) := by
  simp [GetSelfCalibration, readAndCheckResponse, h3, hc, SELF_CALIBRATION_ENABLED]

/-- C8: on every verified 3-byte response frame, GetSelfCalibration returns
true exactly when byte index 1 equals 0x01, returns false when it equals 0x00,
and the returned boolean depends only on byte index 1, not on byte index 0. -/
theorem getSelfCalibration_spec :
    (∀ frame : List Nat, frame.length = 3 → checkCRC8 frame = Except.ok () →
      (GetSelfCalibration (Except.ok frame) = (true, none) ↔ frame.getD 1 0 = 1) ∧
      (frame.getD 1 0 = 0 → GetSelfCalibration (Except.ok frame) = (false, none))) ∧
    ∀ f g : List Nat, f.length = 3 → g.length = 3 →
      checkCRC8 f = Except.ok () → checkCRC8 g = Except.ok () →
      f.getD 1 0 = g.getD 1 0 →
      GetSelfCalibration (Except.ok f) = GetSelfCalibration (Except.ok g) := by
  refine ⟨fun frame h3 hc => ?_, fun f g hf3 hg3 hcf hcg hbyte => ?_⟩
  · rw [getSelfCalibration_ok frame h3 hc]
    refine ⟨⟨fun h => ?_, fun h => ?_⟩, fun h => ?_⟩
    · have hfst := congrArg Prod.fst h
      simpa using hfst
    · rw [h]
      rfl
    · rw [h]
      rfl
  · rw [getSelfCalibration_ok f hf3 hcf, getSelfCalibration_ok g hg3 hcg, hbyte]

theorem getSelfCalibration_spec_witness :
    ([0, 1, 176] : List Nat).length = 3 ∧ checkCRC8 [0, 1, 176] = Except.ok () ∧
    (GetSelfCalibration (Except.ok [0, 1, 176]) = (true, none) ↔
      ([0, 1, 176] : List Nat).getD 1 0 = 1) :=
  ⟨by decide, by rfl, (getSelfCalibration_spec.1 [0, 1, 176] (by decide) (by rfl)).1⟩

/-! Setters with range validation. -/

/-- C5: SetMeasurementInterval rejects every value outside [2,1800] with the
InvalidParameter message naming the parameter and the valid range, before any
bus transaction; every value inside [2,1800] is transmitted as command 0x4600
followed by the two big-endian value bytes and a correct trailing CRC8 over
those two bytes. -/
theorem setMeasurementInterval_spec :
    (∀ v : Nat, v < 2 ∨ v > 1800 →
      SetMeasurementInterval v = Except.error (DriverError.invalidParameter
        ("invalid measurement interval: " ++ toString v ++ ", expected [2-1800]s"))) ∧
    ∀ v : Nat, 2 ≤ v → v ≤ 1800 →
      SetMeasurementInterval v =
        Except.ok [0x46, 0x00, (v >>> 8) % 256, (v &&& 0xFF) % 256,
          computeCRC8 [(v >>> 8) % 256, (v &&& 0xFF) % 256] 2] ∧
      checkCRC8 [(v >>> 8) % 256, (v &&& 0xFF) % 256,
        computeCRC8 [(v >>> 8) % 256, (v &&& 0xFF) % 256] 2] = Except.ok () := by
  constructor
  · intro v hv
    rw [SetMeasurementInterval, if_pos hv]
  · intro v h2 h18
    have hcond : ¬(v < 2 ∨ v > 1800) := by omega
    rw [SetMeasurementInterval, if_neg hcond]
    refine ⟨?_, checkCRC8_pair _ _⟩
    have hc1 : ((CMD_MEASUREMENT_INTERVAL >>> 8) % 256) = 0x46 := by rfl
    have hc2 : ((CMD_MEASUREMENT_INTERVAL &&& 0xFF) % 256) = 0x00 := by rfl
    simp only [writeValue, hc1, hc2]

theorem setMeasurementInterval_spec_witness :
    SetMeasurementInterval 1 = Except.error (DriverError.invalidParameter
      ("invalid measurement interval: " ++ toString 1 ++ ", expected [2-1800]s")) ∧
    SetMeasurementInterval 1801 = Except.error (DriverError.invalidParameter
      ("invalid measurement interval: " ++ toString 1801 ++ ", expected [2-1800]s")) ∧
    SetMeasurementInterval 2 =
      Except.ok [0x46, 0x00, (2 >>> 8) % 256, (2 &&& 0xFF) % 256,
        computeCRC8 [(2 >>> 8) % 256, (2 &&& 0xFF) % 256] 2] ∧
    SetMeasurementInterval 1800 =
      Except.ok [0x46, 0x00, (1800 >>> 8) % 256, (1800 &&& 0xFF) % 256,
        computeCRC8 [(1800 >>> 8) % 256, (1800 &&& 0xFF) % 256] 2] :=
  ⟨setMeasurementInterval_spec.1 1 (by omega),
    setMeasurementInterval_spec.1 1801 (by omega),
    (setMeasurementInterval_spec.2 2 (by omega) (by omega)).1,
    (setMeasurementInterval_spec.2 1800 (by omega) (by omega)).1⟩

/-- C6: StartContinuousMeasurement accepts exactly 0 and the values in
[700,1200], transmitting the accepted value as the payload of command 0x0010;
every other value fails with InvalidParameter before any bus transaction. -/
theorem startContinuousMeasurement_spec :
    (∀ p : Nat, p = 0 ∨ (700 ≤ p ∧ p ≤ 1200) →
      StartContinuousMeasurement p =
        Except.ok [0x00, 0x10, (p >>> 8) % 256, (p &&& 0xFF) % 256,
          computeCRC8 [(p >>> 8) % 256, (p &&& 0xFF) % 256] 2]) ∧
    ∀ p : Nat, p ≠ 0 → p < 700 ∨ p > 1200 →
      StartContinuousMeasurement p = Except.error (DriverError.invalidParameter
        ("invalid ambient pressure value: " ++ toString p ++
          ", expected 0 or [700-1200]")) := by
  constructor
  · intro p hp
    have hcond : ¬(p ≠ 0 ∧ (p < 700 ∨ p > 1200)) := by omega
    rw [StartContinuousMeasurement, if_neg hcond]
    have hc1 : ((CMD_START_CONTINUOUS_MEASUREMENT >>> 8) % 256) = 0x00 := by rfl
    have hc2 : ((CMD_START_CONTINUOUS_MEASUREMENT &&& 0xFF) % 256) = 0x10 := by rfl
    simp only [writeValue, hc1, hc2]
  · intro p hp0 hpr
    rw [StartContinuousMeasurement, if_pos ⟨hp0, hpr⟩]

theorem startContinuousMeasurement_spec_witness :
    StartContinuousMeasurement 0 =
      Except.ok [0x00, 0x10, (0 >>> 8) % 256, (0 &&& 0xFF) % 256,
        computeCRC8 [(0 >>> 8) % 256, (0 &&& 0xFF) % 256] 2] ∧
    StartContinuousMeasurement 700 =
      Except.ok [0x00, 0x10, (700 >>> 8) % 256, (700 &&& 0xFF) % 256,
        computeCRC8 [(700 >>> 8) % 256, (700 &&& 0xFF) % 256] 2] ∧
    StartContinuousMeasurement 1200 =
      Except.ok [0x00, 0x10, (1200 >>> 8) % 256, (1200 &&& 0xFF) % 256,
        computeCRC8 [(1200 >>> 8) % 256, (1200 &&& 0xFF) % 256] 2] ∧
    StartContinuousMeasurement 699 = Except.error (DriverError.invalidParameter
      ("invalid ambient pressure value: " ++ toString 699 ++
        ", expected 0 or [700-1200]")) ∧
    StartContinuousMeasurement 1201 = Except.error (DriverError.invalidParameter
      ("invalid ambient pressure value: " ++ toString 1201 ++
        ", expected 0 or [700-1200]")) ∧
    StartContinuousMeasurement 50 = Except.error (DriverError.invalidParameter
      ("invalid ambient pressure value: " ++ toString 50 ++
        ", expected 0 or [700-1200]")) :=
  ⟨startContinuousMeasurement_spec.1 0 (by omega),
    startContinuousMeasurement_spec.1 700 (by omega),
    startContinuousMeasurement_spec.1 1200 (by omega),
    startContinuousMeasurement_spec.2 699 (by omega) (by omega),
    startContinuousMeasurement_spec.2 1201 (by omega) (by omega),
    startContinuousMeasurement_spec.2 50 (by omega) (by omega)⟩

/-! ReadMeasurement chunk handling. -/

lemma readChunk_eq (result : List Nat) (i v : Nat) :
    readChunk result i v =
      match checkCRC8 [result.getD i 0, result.getD (i + 1) 0, result.getD (i + 2) 0] with
      | Except.error e => Except.error e
      | Except.ok _ =>
        Except.ok
          ((((((v <<< 8) % 2 ^ 32) ||| result.getD i 0) <<< 8) % 2 ^ 32) |||
            result.getD (i + 1) 0) := rfl

lemma readChunk_fail (result : List Nat) (i v : Nat) (e : DriverError)
    (h : checkCRC8 [result.getD i 0, result.getD (i + 1) 0, result.getD (i + 2) 0] =
      Except.error e) :
    readChunk result i v = Except.error e := by
  rw [readChunk_eq, h]

lemma readChunk_ok (result : List Nat) (i v : Nat)
    (h : checkCRC8 [result.getD i 0, result.getD (i + 1) 0, result.getD (i + 2) 0] =
      Except.ok ()) :
    readChunk result i v = Except.ok
      ((((((v <<< 8) % 2 ^ 32) ||| result.getD i 0) <<< 8) % 2 ^ 32) |||
        result.getD (i + 1) 0) := by
  rw [readChunk_eq, h]

lemma decodeGroup_eq (result : List Nat) (i : Nat) :
    decodeGroup result i =
      match readChunk result i 0 with
      | Except.error e => Except.error e
      | Except.ok v => readChunk result (i + 3) v := rfl

lemma readMeasurementDecode_eq (result : List Nat) :
    readMeasurementDecode result =
      match decodeGroup result 0 with
      | Except.error e => Except.error e
      | Except.ok v0 =>
        match decodeGroup result 6 with
        | Except.error e => Except.error e
        | Except.ok v1 =>
          match decodeGroup result 12 with
          | Except.error e => Except.error e
          | Except.ok v2 =>
            Except.ok ⟨float32frombits v0, float32frombits v1, float32frombits v2⟩ := rfl

lemma readMeasurement_ok_eq (result : List Nat) :
    ReadMeasurement (Except.ok result) =
      match readMeasurementDecode result with
      | Except.error e => (Measurement.zero, some e)
      | Except.ok m => (m, none) := rfl

/-- C10: every getter operation that returns an error returns the zero value
of its result type alongside it (empty string, 0, false, or the all-zero
Measurement) — no partially decoded result ever accompanies an error. -/
theorem getters_zero_value_on_error :
    (∀ rx, (GetSoftwareVersion rx).2 ≠ none → (GetSoftwareVersion rx).1 = "") ∧
    (∀ rx, (GetMeasurementInterval rx).2 ≠ none → (GetMeasurementInterval rx).1 = 0) ∧
    (∀ rx, (GetSelfCalibration rx).2 ≠ none → (GetSelfCalibration rx).1 = false) ∧
    (∀ rx, (GetForcedRecalibrationValue rx).2 ≠ none →
      (GetForcedRecalibrationValue rx).1 = 0) ∧
    (∀ rx, (GetTemperatureOffset rx).2 ≠ none → (GetTemperatureOffset rx).1 = 0) ∧
    (∀ rx, (GetAltitudeCompensation rx).2 ≠ none →
      (GetAltitudeCompensation rx).1 = 0) ∧
    (∀ rx, (HasDataReady rx).2 ≠ none → (HasDataReady rx).1 = false) ∧
    (∀ rx, (ReadMeasurement rx).2 ≠ none →
      (ReadMeasurement rx).1 = Measurement.zero) := by
  refine ⟨fun rx h => ?_, fun rx h => ?_, fun rx h => ?_, fun rx h => ?_,
    fun rx h => ?_, fun rx h => ?_, fun rx h => ?_, fun rx h => ?_⟩
  · cases hr : readAndCheckResponse rx with
    | error e => simp [GetSoftwareVersion, hr]
    | ok r => exact absurd (by simp [GetSoftwareVersion, hr]) h
  · cases hr : readAndCheckResponse rx with
    | error e => simp [GetMeasurementInterval, hr]
    | ok r => exact absurd (by simp [GetMeasurementInterval, hr]) h
  · cases hr : readAndCheckResponse rx with
    | error e => simp [GetSelfCalibration, hr]
    | ok r => exact absurd (by simp [GetSelfCalibration, hr]) h
  · cases hr : readAndCheckResponse rx with
    | error e => simp [GetForcedRecalibrationValue, hr]
    | ok r => exact absurd (by simp [GetForcedRecalibrationValue, hr]) h
  · cases hr : readAndCheckResponse rx with
    | error e => simp [GetTemperatureOffset, hr]
    | ok r => exact absurd (by simp [GetTemperatureOffset, hr]) h
  · cases hr : readAndCheckResponse rx with
    | error e => simp [GetAltitudeCompensation, hr]
    | ok r => exact absurd (by simp [GetAltitudeCompensation, hr]) h
  · cases hr : readAndCheckResponse rx with
    | error e => simp [HasDataReady, hr]
    | ok r => exact absurd (by simp [HasDataReady, hr]) h
  · cases rx with
    | error e => rfl
    | ok result =>
      cases hd : readMeasurementDecode result with
      | error e => rw [readMeasurement_ok_eq, hd]
      | ok m => exact absurd (by rw [readMeasurement_ok_eq, hd]) h

theorem getters_zero_value_on_error_witness :
    (GetSoftwareVersion (Except.error (DriverError.transportFailure ("bus")))).1 = "" ∧
    (GetMeasurementInterval (Except.error (DriverError.transportFailure ("bus")))).1 = 0 ∧
    (GetSelfCalibration (Except.error (DriverError.transportFailure ("bus")))).1 = false ∧
    (GetForcedRecalibrationValue (Except.error (DriverError.transportFailure ("bus")))).1 = 0 ∧
    (GetTemperatureOffset (Except.error (DriverError.transportFailure ("bus")))).1 = 0 ∧
    (GetAltitudeCompensation (Except.error (DriverError.transportFailure ("bus")))).1 = 0 ∧
    (HasDataReady (Except.error (DriverError.transportFailure ("bus")))).1 = false ∧
    (ReadMeasurement (Except.error (DriverError.transportFailure ("bus")))).1 =
      Measurement.zero :=
  ⟨getters_zero_value_on_error.1 _ (by decide),
    getters_zero_value_on_error.2.1 _ (by decide),
    getters_zero_value_on_error.2.2.1 _ (by decide),
    getters_zero_value_on_error.2.2.2.1 _ (by decide),
    getters_zero_value_on_error.2.2.2.2.1 _ (by decide),
    getters_zero_value_on_error.2.2.2.2.2.1 _ (by decide),
    getters_zero_value_on_error.2.2.2.2.2.2.1 _ (by decide),
    getters_zero_value_on_error.2.2.2.2.2.2.2 _ (by decide)⟩

lemma checkCRC8_three (a b c : Nat) :
    checkCRC8 [a, b, c] =
      if computeCRC8 [a, b] 2 ≠ c then
        Except.error (DriverError.checksumMismatch c (computeCRC8 [a, b] 2))
      else Except.ok () :=
  checkCRC8_append [a, b] c (by norm_num)

lemma checkCRC8_three_error (a b c : Nat) (e : DriverError)
    (h : checkCRC8 [a, b, c] = Except.error e) :
    ∃ x y, e = DriverError.checksumMismatch x y := by
  rw [checkCRC8_three] at h
  by_cases hc : computeCRC8 [a, b] 2 ≠ c
  · rw [if_pos hc] at h
    refine ⟨c, computeCRC8 [a, b] 2, ?_⟩
    injection h with h2
    exact h2.symm
  · rw [if_neg hc] at h
    exact Except.noConfusion h

lemma decodeGroup_fail_left (result : List Nat) (i : Nat) (e : DriverError)
    (h : checkCRC8 [result.getD i 0, result.getD (i + 1) 0, result.getD (i + 2) 0] =
      Except.error e) :
    decodeGroup result i = Except.error e := by
  rw [decodeGroup_eq, readChunk_fail result i 0 e h]

lemma decodeGroup_fail_right (result : List Nat) (i : Nat) (e : DriverError)
    (h1 : checkCRC8 [result.getD i 0, result.getD (i + 1) 0, result.getD (i + 2) 0] =
      Except.ok ())
    (h2 : checkCRC8 [result.getD (i + 3) 0, result.getD (i + 3 + 1) 0,
      result.getD (i + 3 + 2) 0] = Except.error e) :
    decodeGroup result i = Except.error e := by
  rw [decodeGroup_eq, readChunk_ok result i 0 h1]
  exact readChunk_fail result (i + 3) _ e h2

lemma decodeGroup_ok (result : List Nat) (i : Nat)
    (h1 : checkCRC8 [result.getD i 0, result.getD (i + 1) 0, result.getD (i + 2) 0] =
      Except.ok ())
    (h2 : checkCRC8 [result.getD (i + 3) 0, result.getD (i + 3 + 1) 0,
      result.getD (i + 3 + 2) 0] = Except.ok ()) :
    ∃ v, decodeGroup result i = Except.ok v := by
  exact ⟨_, by
    rw [decodeGroup_eq, readChunk_ok result i 0 h1]
    exact readChunk_ok result (i + 3) _ h2⟩

/-- C4 counterexample to "the error names which chunk failed": two 18-byte
buffers, one failing CRC verification at chunk 0 and the other at chunk 1,
make ReadMeasurement return the exact same error value (expected 5, computed
0x81) — the returned error carries no information about which chunk failed. -/
theorem readMeasurement_error_not_naming_chunk :
    ReadMeasurement (Except.ok frameBadChunk0) =
      ReadMeasurement (Except.ok frameBadChunk1) ∧
    ReadMeasurement (Except.ok frameBadChunk0) =
      (Measurement.zero, some (DriverError.checksumMismatch 5 0x81)) ∧
    checkCRC8 (measChunk frameBadChunk0 0) =
      Except.error (DriverError.checksumMismatch 5 0x81) ∧
    checkCRC8 (measChunk frameBadChunk1 0) = Except.ok () ∧
    checkCRC8 (measChunk frameBadChunk1 1) =
      Except.error (DriverError.checksumMismatch 5 0x81) :=
  ⟨rfl, rfl, rfl, rfl, rfl⟩

/-- C4 amended: each 3-byte chunk is CRC8-verified independently; when the
first failing chunk is chunk j, the whole read aborts with exactly that
chunk's ChecksumMismatch error (which carries the expected and computed
checksum bytes but does not identify the chunk), and the returned Measurement
is the zero value: no decoded field from any chunk is returned. -/
theorem readMeasurement_abort_on_bad_chunk (result : List Nat) (j : Nat)
    (hj : j < 6) (e : DriverError)
    (hfail : checkCRC8 (measChunk result j) = Except.error e)
    (hok : ∀ i, i < j → checkCRC8 (measChunk result i) = Except.ok ()) :
    ReadMeasurement (Except.ok result) = (Measurement.zero, some e) ∧
    ∃ x y, e = DriverError.checksumMismatch x y := by
  constructor
  · interval_cases j
    · have hf : checkCRC8 [result.getD 0 0, result.getD 1 0, result.getD 2 0] =
          Except.error e := by simpa [measChunk] using hfail
      have hg : decodeGroup result 0 = Except.error e := decodeGroup_fail_left _ _ _ hf
      rw [readMeasurement_ok_eq, readMeasurementDecode_eq, hg]
    · have h0 : checkCRC8 [result.getD 0 0, result.getD 1 0, result.getD 2 0] =
          Except.ok () := by simpa [measChunk] using hok 0 (by omega)
      have hf : checkCRC8 [result.getD 3 0, result.getD 4 0, result.getD 5 0] =
          Except.error e := by simpa [measChunk] using hfail
      have hg : decodeGroup result 0 = Except.error e :=
        decodeGroup_fail_right _ _ _ h0 hf
      rw [readMeasurement_ok_eq, readMeasurementDecode_eq, hg]
    · have h0 : checkCRC8 [result.getD 0 0, result.getD 1 0, result.getD 2 0] =
          Except.ok () := by simpa [measChunk] using hok 0 (by omega)
      have h1 : checkCRC8 [result.getD 3 0, result.getD 4 0, result.getD 5 0] =
          Except.ok () := by simpa [measChunk] using hok 1 (by omega)
      obtain ⟨v, hv⟩ := decodeGroup_ok result 0 h0 h1
      have hf : checkCRC8 [result.getD 6 0, result.getD 7 0, result.getD 8 0] =
          Except.error e := by simpa [measChunk] using hfail
      have hg : decodeGroup result 6 = Except.error e := decodeGroup_fail_left _ _ _ hf
      rw [readMeasurement_ok_eq, readMeasurementDecode_eq, hv, hg]
    · have h0 : checkCRC8 [result.getD 0 0, result.getD 1 0, result.getD 2 0] =
          Except.ok () := by simpa [measChunk] using hok 0 (by omega)
      have h1 : checkCRC8 [result.getD 3 0, result.getD 4 0, result.getD 5 0] =
          Except.ok () := by simpa [measChunk] using hok 1 (by omega)
      obtain ⟨v, hv⟩ := decodeGroup_ok result 0 h0 h1
      have h2 : checkCRC8 [result.getD 6 0, result.getD 7 0, result.getD 8 0] =
          Except.ok () := by simpa [measChunk] using hok 2 (by omega)
      have hf : checkCRC8 [result.getD 9 0, result.getD 10 0, result.getD 11 0] =
          Except.error e := by simpa [measChunk] using hfail
      have hg : decodeGroup result 6 = Except.error e :=
        decodeGroup_fail_right _ _ _ h2 hf
      rw [readMeasurement_ok_eq, readMeasurementDecode_eq, hv, hg]
    · have h0 : checkCRC8 [result.getD 0 0, result.getD 1 0, result.getD 2 0] =
          Except.ok () := by simpa [measChunk] using hok 0 (by omega)
      have h1 : checkCRC8 [result.getD 3 0, result.getD 4 0, result.getD 5 0] =
          Except.ok () := by simpa [measChunk] using hok 1 (by omega)
      obtain ⟨v, hv⟩ := decodeGroup_ok result 0 h0 h1
      have h2 : checkCRC8 [result.getD 6 0, result.getD 7 0, result.getD 8 0] =
          Except.ok () := by simpa [measChunk] using hok 2 (by omega)
      have h3 : checkCRC8 [result.getD 9 0, result.getD 10 0, result.getD 11 0] =
          Except.ok () := by simpa [measChunk] using hok 3 (by omega)
      obtain ⟨w, hw⟩ := decodeGroup_ok result 6 h2 h3
      have hf : checkCRC8 [result.getD 12 0, result.getD 13 0, result.getD 14 0] =
          Except.error e := by simpa [measChunk] using hfail
      have hg : decodeGroup result 12 = Except.error e := decodeGroup_fail_left _ _ _ hf
      rw [readMeasurement_ok_eq, readMeasurementDecode_eq, hv, hw, hg]
    · have h0 : checkCRC8 [result.getD 0 0, result.getD 1 0, result.getD 2 0] =
          Except.ok () := by simpa [measChunk] using hok 0 (by omega)
      have h1 : checkCRC8 [result.getD 3 0, result.getD 4 0, result.getD 5 0] =
          Except.ok () := by simpa [measChunk] using hok 1 (by omega)
      obtain ⟨v, hv⟩ := decodeGroup_ok result 0 h0 h1
      have h2 : checkCRC8 [result.getD 6 0, result.getD 7 0, result.getD 8 0] =
          Except.ok () := by simpa [measChunk] using hok 2 (by omega)
      have h3 : checkCRC8 [result.getD 9 0, result.getD 10 0, result.getD 11 0] =
          Except.ok () := by simpa [measChunk] using hok 3 (by omega)
      obtain ⟨w, hw⟩ := decodeGroup_ok result 6 h2 h3
      have h4 : checkCRC8 [result.getD 12 0, result.getD 13 0, result.getD 14 0] =
          Except.ok () := by simpa [measChunk] using hok 4 (by omega)
      have hf : checkCRC8 [result.getD 15 0, result.getD 16 0, result.getD 17 0] =
          Except.error e := by simpa [measChunk] using hfail
      have hg : decodeGroup result 12 = Except.error e :=
        decodeGroup_fail_right _ _ _ h4 hf
      rw [readMeasurement_ok_eq, readMeasurementDecode_eq, hv, hw, hg]
  · refine checkCRC8_three_error (result.getD (3 * j) 0) (result.getD (3 * j + 1) 0)
      (result.getD (3 * j + 2) 0) e ?_
    simpa [measChunk] using hfail

theorem readMeasurement_abort_on_bad_chunk_witness :
    ReadMeasurement (Except.ok frameBadChunk0) =
      (Measurement.zero, some (DriverError.checksumMismatch 5 129)) ∧
    ∃ x y, DriverError.checksumMismatch 5 129 = DriverError.checksumMismatch x y :=
  readMeasurement_abort_on_bad_chunk frameBadChunk0 0 (by omega)
    (DriverError.checksumMismatch 5 129) (by rfl) (fun i hi => absurd hi (by omega))

/-! Arithmetic of the uint32 accumulator folding in ReadMeasurement. -/

lemma foldStep_eq (x y : Nat) (hx : x < 2 ^ 24) (hy : y < 256) :
    ((x <<< 8) % 2 ^ 32) ||| y = 256 * x + y := by
  have h1 : x <<< 8 = 256 * x := by
    rw [Nat.shiftLeft_eq]
    ring
  have h2 : (256 * x) % 2 ^ 32 = 256 * x := Nat.mod_eq_of_lt (by omega)
  have h3 := Nat.mul_add_lt_is_or (show y < 2 ^ 8 by omega) x
  rw [h1, h2]
  norm_num at h3
  exact h3.symm

lemma chunkFold_eq (v x y : Nat) (hv : v < 2 ^ 16) (hx : x < 256) (hy : y < 256) :
    (((((v <<< 8) % 2 ^ 32) ||| x) <<< 8) % 2 ^ 32) ||| y
      = (v * 256 + x) * 256 + y := by
  rw [foldStep_eq v x (by omega) hx]
  rw [foldStep_eq (256 * v + x) y (by omega) hy]
  ring

lemma groupFold_be32 (a0 a1 a2 a3 : Nat) (h0 : a0 < 256) (h1 : a1 < 256)
    (h2 : a2 < 256) (h3 : a3 < 256) :
    ((((((((((((0 : Nat) <<< 8) % 2 ^ 32) ||| a0) <<< 8) % 2 ^ 32) ||| a1)
      <<< 8) % 2 ^ 32) ||| a2) <<< 8) % 2 ^ 32) ||| a3 = be32 a0 a1 a2 a3 := by
  rw [chunkFold_eq 0 a0 a1 (by norm_num) h0 h1]
  rw [chunkFold_eq ((0 * 256 + a0) * 256 + a1) a2 a3 (by omega) h2 h3]
  unfold be32
  ring

/-- C1: on every 18-byte response frame whose six 3-byte chunks each carry a
correct CRC8, ReadMeasurement folds the four data bytes of each consecutive
6-byte group, in frame order, most-significant byte first, into a big-endian
uint32 (`be32`), reinterprets its bit pattern as an IEEE-754 binary32 float
(`float32frombits`, no scaling), and assigns the three floats to CO2,
Temperature, Humidity in that order; on the 18-byte fixture encoding
CO2 = 400.0, Temperature = 25.0, Humidity = 50.0, it returns exactly those
three values. -/
theorem readMeasurement_decodes_bigendian :
    (∀ a0 a1 k0 a2 a3 k1 b0 b1 k2 b2 b3 k3 c0 c1 k4 c2 c3 k5 : Nat,
      a0 < 256 → a1 < 256 → a2 < 256 → a3 < 256 →
      b0 < 256 → b1 < 256 → b2 < 256 → b3 < 256 →
      c0 < 256 → c1 < 256 → c2 < 256 → c3 < 256 →
      checkCRC8 [a0, a1, k0] = Except.ok () →
      checkCRC8 [a2, a3, k1] = Except.ok () →
      checkCRC8 [b0, b1, k2] = Except.ok () →
      checkCRC8 [b2, b3, k3] = Except.ok () →
      checkCRC8 [c0, c1, k4] = Except.ok () →
      checkCRC8 [c2, c3, k5] = Except.ok () →
      ReadMeasurement (Except.ok
          [a0, a1, k0, a2, a3, k1, b0, b1, k2, b2, b3, k3, c0, c1, k4, c2, c3, k5]) =
        ({ CO2 := float32frombits (be32 a0 a1 a2 a3),
           Temperature := float32frombits (be32 b0 b1 b2 b3),
           Humidity := float32frombits (be32 c0 c1 c2 c3) }, none)) ∧
    ReadMeasurement (Except.ok measurementFixture) =
      ({ CO2 := float32frombits 0x43C80000,
         Temperature := float32frombits 0x41C80000,
         Humidity := float32frombits 0x42480000 }, none) ∧
    (float32frombits 0x43C80000).toRatValue = some 400 ∧
    (float32frombits 0x41C80000).toRatValue = some 25 ∧
    (float32frombits 0x42480000).toRatValue = some 50 := by
  refine ⟨?_, by rfl, ?_, ?_, ?_⟩
  · intro a0 a1 k0 a2 a3 k1 b0 b1 k2 b2 b3 k3 c0 c1 k4 c2 c3 k5
    intro ha0 ha1 ha2 ha3 hb0 hb1 hb2 hb3 hc0 hc1 hc2 hc3 hk0 hk1 hk2 hk3 hk4 hk5
    set L : List Nat :=
      [a0, a1, k0, a2, a3, k1, b0, b1, k2, b2, b3, k3, c0, c1, k4, c2, c3, k5] with hL
    have r1 : readChunk L 0 0 =
        Except.ok ((((((0 : Nat) <<< 8) % 2 ^ 32) ||| a0) <<< 8) % 2 ^ 32 ||| a1) := by
      rw [readChunk_eq]
      have e0 : L.getD 0 0 = a0 := rfl
      have e1 : L.getD (0 + 1) 0 = a1 := rfl
      have e2 : L.getD (0 + 2) 0 = k0 := rfl
      rw [e0, e1, e2, hk0]
    have r2 : readChunk L (0 + 3)
        ((((((0 : Nat) <<< 8) % 2 ^ 32) ||| a0) <<< 8) % 2 ^ 32 ||| a1) =
        Except.ok (((((((((((0 : Nat) <<< 8) % 2 ^ 32) ||| a0) <<< 8) % 2 ^ 32 ||| a1)
          <<< 8) % 2 ^ 32) ||| a2) <<< 8) % 2 ^ 32 ||| a3) := by
      rw [readChunk_eq]
      have e0 : L.getD (0 + 3) 0 = a2 := rfl
      have e1 : L.getD (0 + 3 + 1) 0 = a3 := rfl
      have e2 : L.getD (0 + 3 + 2) 0 = k1 := rfl
      rw [e0, e1, e2, hk1]
    have d0 : decodeGroup L 0 =
        Except.ok (((((((((((0 : Nat) <<< 8) % 2 ^ 32) ||| a0) <<< 8) % 2 ^ 32 ||| a1)
          <<< 8) % 2 ^ 32) ||| a2) <<< 8) % 2 ^ 32 ||| a3) := by
      rw [decodeGroup_eq, r1]
      exact r2
    have r3 : readChunk L 6 0 =
        Except.ok ((((((0 : Nat) <<< 8) % 2 ^ 32) ||| b0) <<< 8) % 2 ^ 32 ||| b1) := by
      rw [readChunk_eq]
      have e0 : L.getD 6 0 = b0 := rfl
      have e1 : L.getD (6 + 1) 0 = b1 := rfl
      have e2 : L.getD (6 + 2) 0 = k2 := rfl
      rw [e0, e1, e2, hk2]
    have r4 : readChunk L (6 + 3)
        ((((((0 : Nat) <<< 8) % 2 ^ 32) ||| b0) <<< 8) % 2 ^ 32 ||| b1) =
        Except.ok (((((((((((0 : Nat) <<< 8) % 2 ^ 32) ||| b0) <<< 8) % 2 ^ 32 ||| b1)
          <<< 8) % 2 ^ 32) ||| b2) <<< 8) % 2 ^ 32 ||| b3) := by
      rw [readChunk_eq]
      have e0 : L.getD (6 + 3) 0 = b2 := rfl
      have e1 : L.getD (6 + 3 + 1) 0 = b3 := rfl
      have e2 : L.getD (6 + 3 + 2) 0 = k3 := rfl
      rw [e0, e1, e2, hk3]
    have d1 : decodeGroup L 6 =
        Except.ok (((((((((((0 : Nat) <<< 8) % 2 ^ 32) ||| b0) <<< 8) % 2 ^ 32 ||| b1)
          <<< 8) % 2 ^ 32) ||| b2) <<< 8) % 2 ^ 32 ||| b3) := by
      rw [decodeGroup_eq, r3]
      exact r4
    have r5 : readChunk L 12 0 =
        Except.ok ((((((0 : Nat) <<< 8) % 2 ^ 32) ||| c0) <<< 8) % 2 ^ 32 ||| c1) := by
      rw [readChunk_eq]
      have e0 : L.getD 12 0 = c0 := rfl
      have e1 : L.getD (12 + 1) 0 = c1 := rfl
      have e2 : L.getD (12 + 2) 0 = k4 := rfl
      rw [e0, e1, e2, hk4]
    have r6 : readChunk L (12 + 3)
        ((((((0 : Nat) <<< 8) % 2 ^ 32) ||| c0) <<< 8) % 2 ^ 32 ||| c1) =
        Except.ok (((((((((((0 : Nat) <<< 8) % 2 ^ 32) ||| c0) <<< 8) % 2 ^ 32 ||| c1)
          <<< 8) % 2 ^ 32) ||| c2) <<< 8) % 2 ^ 32 ||| c3) := by
      rw [readChunk_eq]
      have e0 : L.getD (12 + 3) 0 = c2 := rfl
      have e1 : L.getD (12 + 3 + 1) 0 = c3 := rfl
      have e2 : L.getD (12 + 3 + 2) 0 = k5 := rfl
      rw [e0, e1, e2, hk5]
    have d2 : decodeGroup L 12 =
        Except.ok (((((((((((0 : Nat) <<< 8) % 2 ^ 32) ||| c0) <<< 8) % 2 ^ 32 ||| c1)
          <<< 8) % 2 ^ 32) ||| c2) <<< 8) % 2 ^ 32 ||| c3) := by
      rw [decodeGroup_eq, r5]
      exact r6
    rw [readMeasurement_ok_eq, readMeasurementDecode_eq, d0, d1, d2]
    rw [groupFold_be32 a0 a1 a2 a3 ha0 ha1 ha2 ha3,
      groupFold_be32 b0 b1 b2 b3 hb0 hb1 hb2 hb3,
      groupFold_be32 c0 c1 c2 c3 hc0 hc1 hc2 hc3]
  · norm_num [Float32.toRatValue, float32frombits]
  · norm_num [Float32.toRatValue, float32frombits]
  · norm_num [Float32.toRatValue, float32frombits]

theorem readMeasurement_decodes_bigendian_witness :
    ReadMeasurement (Except.ok
        [0x43, 0xC8, 0xDB, 0x00, 0x00, 0x81, 0x41, 0xC8, 0x02, 0x00, 0x00, 0x81,
         0x42, 0x48, 0x55, 0x00, 0x00, 0x81]) =
      ({ CO2 := float32frombits (be32 0x43 0xC8 0x00 0x00),
         Temperature := float32frombits (be32 0x41 0xC8 0x00 0x00),
         Humidity := float32frombits (be32 0x42 0x48 0x00 0x00) }, none) :=
  readMeasurement_decodes_bigendian.1 0x43 0xC8 0xDB 0x00 0x00 0x81 0x41 0xC8 0x02
    0x00 0x00 0x81 0x42 0x48 0x55 0x00 0x00 0x81
    (by norm_num) (by norm_num) (by norm_num) (by norm_num)
    (by norm_num) (by norm_num) (by norm_num) (by norm_num)
    (by norm_num) (by norm_num) (by norm_num) (by norm_num)
    (by rfl) (by rfl) (by rfl) (by rfl) (by rfl) (by rfl)

end SCD30
